import Mathlib

/-!
Verification of the okteto build-orchestration engine (cmd/build/v2/build.go)
against its natural-language specification.  The Go code is shallowly embedded:
pure helpers become Lean functions, the stateful scheduler becomes explicit
state passing over a fuel-indexed loop, collaborator calls (registry, builder,
repository, filesystem) become fields of an explicit context record, and
fallible code returns Except.
-/

namespace OktetoBuildV2

/-- One build argument (model.BuildArg): name and value, order-significant. -/
structure BuildArg where
  name : String
  value : String
deriving DecidableEq, Repr

/-- One host-volume mount request (model.StackVolume). -/
structure StackVolume where
  localPath : String
  remotePath : String
deriving DecidableEq, Repr

/-- A build unit (model.BuildInfo), with the fields the orchestrator reads. -/
structure BuildInfo where
  image : String := ""
  context : String := ""
  dockerfile : String := ""
  target : String := ""
  args : List BuildArg := []
  secrets : List (String × String) := []
  volumesToInclude : List StackVolume := []
  dependsOn : List String := []
deriving DecidableEq, Repr

/-- The build plan (model.Manifest restricted to what Build reads): plan name,
whether the manifest is a compose (stack) manifest, whether the deploy section
carries a compose section, and the build section as an ordered association
list of unit name to BuildInfo. -/
structure Manifest where
  name : String
  isStack : Bool := false
  hasComposeSection : Bool := false
  build : List (String × BuildInfo) := []
deriving DecidableEq, Repr

/-- Looks a unit up in the build section of the manifest (Go map indexing);
returns the default BuildInfo for an absent key.  Inside Build the key is
always present because validateServices has checked membership. -/
def Manifest.getSvc (m : Manifest) (svc : String) : BuildInfo :=
  match m.build.find? (fun p => p.1 == svc) with
  | some p => p.2
  | none => {}

/-- The names of the units of the build section, in declaration order. -/
def Manifest.buildSvcNames (m : Manifest) : List String :=
  m.build.map (fun p => p.1)

/-- The CLI-level options (types.BuildOptions), restricted to the fields the
orchestrator reads. -/
structure BuildOptions where
  commandArgs : List String := []
  noCache : Bool := false
  tag : String := ""
  target : String := ""
  cacheFrom : Option (List String) := none
  secrets : Option (List String) := none
deriving DecidableEq, Repr

/-- Errors produced by the orchestrator.  A Go error wrapped with
fmt.Errorf("...%w") is modelled structurally by the wrapped constructor, and
oktetoErrors.UserError (message plus remediation hint) by the user
constructor. -/
inductive BErr where
  | msg (s : String) : BErr
  | user (e : String) (hint : String) : BErr
  | wrapped (svc : String) (inner : BErr) : BErr
deriving DecidableEq, BEq, Repr

/-- The options handed to the Build Executor collaborator for one image build
(types.BuildOptions as filled by build.OptsFromBuildInfo).  The volumes field
records the host mounts layered by the synthesized stage-2 dockerfile. -/
structure BuildOpts where
  tag : String := ""
  context : String := ""
  dockerfile : String := ""
  target : String := ""
  args : List BuildArg := []
  volumes : List StackVolume := []
deriving DecidableEq, Repr

/-- Observable scheduler events: a registry cache lookup for a unit, or the
start of an actual build of a unit.  Each event carries a snapshot of the
built-set at the moment it happened. -/
inductive Ev where
  | cacheCheck (svc : String) (snap : List String) : Ev
  | attempt (svc : String) (snap : List String) : Ev
deriving DecidableEq, Repr

/-- The per-invocation scheduler state: the built-set (builtImagesControl, in
completion order), the exported per-unit image references (the Environment
Exporter record), and the event trace. -/
structure SchedState where
  control : List String := []
  envVars : List (String × String) := []
  trace : List Ev := []
deriving DecidableEq, Repr

/-! ## SHA-256 (crypto/sha256), executable over Nat bytes and words -/

/-- Truncates a Nat to a 32-bit word. -/
def w32 (n : Nat) : Nat := n &&& 0xffffffff

/-- Right rotation of a 32-bit word. -/
def rotr32 (x n : Nat) : Nat := w32 ((x >>> n) ||| (x <<< (32 - n)))

/-- UTF-8 encoding of one unicode code point. -/
def encodeUtf8Char (n : Nat) : List Nat :=
  if n < 0x80 then [n]
  else if n < 0x800 then
    [0xc0 ||| (n >>> 6), 0x80 ||| (n &&& 0x3f)]
  else if n < 0x10000 then
    [0xe0 ||| (n >>> 12), 0x80 ||| ((n >>> 6) &&& 0x3f), 0x80 ||| (n &&& 0x3f)]
  else
    [0xf0 ||| (n >>> 18), 0x80 ||| ((n >>> 12) &&& 0x3f),
     0x80 ||| ((n >>> 6) &&& 0x3f), 0x80 ||| (n &&& 0x3f)]

/-- UTF-8 bytes of a string. -/
def utf8Bytes (s : String) : List Nat :=
  s.data.foldr (fun c acc => encodeUtf8Char c.toNat ++ acc) []

/-- Big-endian 8-byte encoding of a Nat. -/
def be64 (n : Nat) : List Nat :=
  [(n >>> 56) &&& 0xff, (n >>> 48) &&& 0xff, (n >>> 40) &&& 0xff,
   (n >>> 32) &&& 0xff, (n >>> 24) &&& 0xff, (n >>> 16) &&& 0xff,
   (n >>> 8) &&& 0xff, n &&& 0xff]

/-- SHA-256 padding: append the 0x80 byte, zero bytes up to 56 mod 64, and the
big-endian 64-bit bit length. -/
def sha256Pad (msgBytes : List Nat) : List Nat :=
  let len := msgBytes.length
  let zeros := (119 - len % 64) % 64
  msgBytes ++ [0x80] ++ List.replicate zeros 0 ++ be64 (len * 8)

/-- Groups bytes into big-endian 32-bit words. -/
def bytesToWords : List Nat → List Nat
  | b0 :: b1 :: b2 :: b3 :: rest =>
    ((((b0 <<< 8) ||| b1) <<< 8 ||| b2) <<< 8 ||| b3) :: bytesToWords rest
  | _ => []

/-- Splits a word list into blocks of 16 words. -/
def chunk16 (ws : List Nat) : List (List Nat) :=
  if h : ws = [] then []
  else ws.take 16 :: chunk16 (ws.drop 16)
termination_by ws.length
decreasing_by
  simp only [List.length_drop]
  have hp : 0 < ws.length := List.length_pos.mpr h
  omega

/-- The 64 SHA-256 round constants, in decimal. -/
def sha256K : List Nat :=
  [1116352408, 1899447441, 3049323471, 3921009573, 961987163, 1508970993,
   2453635748, 2870763221, 3624381080, 310598401, 607225278, 1426881987,
   1925078388, 2162078206, 2614888103, 3248222580, 3835390401, 4022224774,
   264347078, 604807628, 770255983, 1249150122, 1555081692, 1996064986,
   2554220882, 2821834349, 2952996808, 3210313671, 3336571891, 3584528711,
   113926993, 338241895, 666307205, 773529912, 1294757372, 1396182291,
   1695183700, 1986661051, 2177026350, 2456956037, 2730485921, 2820302411,
   3259730800, 3345764771, 3516065817, 3600352804, 4094571909, 275423344,
   430227734, 506948616, 659060556, 883997877, 958139571, 1322822218,
   1537002063, 1747873779, 1955562222, 2024104815, 2227730452, 2361852424,
   2428436474, 2756734187, 3204031479, 3329325298]

/-- The SHA-256 initial hash value, in decimal. -/
def sha256H0 : List Nat :=
  [1779033703, 3144134277, 1013904242, 2773480762,
   1359893119, 2600822924, 528734635, 1541459225]

/-- Extends a 16-word block to the 64-word message schedule. -/
def sha256Schedule (block : List Nat) : List Nat :=
  (List.range 48).foldl
    (fun w _ =>
      let t2 := w.getD (w.length - 2) 0
      let t7 := w.getD (w.length - 7) 0
      let t15 := w.getD (w.length - 15) 0
      let t16 := w.getD (w.length - 16) 0
      let s0 := (rotr32 t15 7) ^^^ (rotr32 t15 18) ^^^ (t15 >>> 3)
      let s1 := (rotr32 t2 17) ^^^ (rotr32 t2 19) ^^^ (t2 >>> 10)
      w ++ [w32 (t16 + s0 + t7 + s1)])
    block

/-- The SHA-256 compression function for one 16-word block. -/
def sha256Compress (h : List Nat) (block : List Nat) : List Nat :=
  let ws := sha256Schedule block
  let final := (ws.zip sha256K).foldl
    (fun st wk =>
      match st with
      | [a, b, c, d, e, f, g, hh] =>
        let s1 := (rotr32 e 6) ^^^ (rotr32 e 11) ^^^ (rotr32 e 25)
        let ch := (e &&& f) ^^^ ((0xffffffff ^^^ e) &&& g)
        let temp1 := w32 (hh + s1 + ch + wk.2 + wk.1)
        let s0 := (rotr32 a 2) ^^^ (rotr32 a 13) ^^^ (rotr32 a 22)
        let maj := (a &&& b) ^^^ (a &&& c) ^^^ (b &&& c)
        let temp2 := w32 (s0 + maj)
        [w32 (temp1 + temp2), a, b, c, w32 (d + temp1), e, f, g]
      | other => other)
    h
  (h.zip final).map (fun p => w32 (p.1 + p.2))

/-- One lowercase hexadecimal digit. -/
def hexDigit (n : Nat) : Char :=
  if n < 10 then Char.ofNat (48 + n) else Char.ofNat (87 + n)

/-- Lowercase 8-digit hexadecimal rendering of a 32-bit word. -/
def hex8 (n : Nat) : String :=
  String.mk ((List.range 8).map (fun i => hexDigit ((n >>> ((7 - i) * 4)) &&& 0xf)))

/-- SHA-256 of the UTF-8 bytes of a string, as a lowercase hex digest
(hex.EncodeToString(sha256.Sum256([]byte(s)))). -/
def sha256Hex (s : String) : String :=
  let padded := sha256Pad (utf8Bytes s)
  let blocks := chunk16 (bytesToWords padded)
  let hf := blocks.foldl sha256Compress sha256H0
  String.join (hf.map hex8)

/-! ## Fingerprint Generator (serviceHasher)

The serviceHasher implementation lives outside the sources at hand (only its
callers in build.go and its unit test Test_getBuildHashFromCommit are
present), so its functions are modelled from the specification and checked
against the literal vectors asserted by that test. -/

/-- Modelled from the spec: the Repository collaborator resolves the current
commit id; on error the empty string is used instead (spec 4.1 step 1). -/
def commitFromRepo : Except String String → String
  | .ok sha => sha
  | .error _ => ""

/-- Modelled from the spec: a build-argument value is expanded against the
ambient variable environment before hashing, so that a value of $BAR with
environment BAR=bar hashes as bar (spec 4.1 step 2); an unset variable
expands to the empty string. -/
def expandValue (osEnv : String → Option String) (v : String) : String :=
  match v.data with
  | '$' :: rest => (osEnv (String.mk rest)).getD ""
  | _ => v

/-- Lexicographic strict order on character lists, by code point. -/
def charsLt : List Char → List Char → Bool
  | [], [] => false
  | [], _ :: _ => true
  | _ :: _, [] => false
  | c :: cs, d :: ds =>
    if c.toNat < d.toNat then true
    else if d.toNat < c.toNat then false
    else charsLt cs ds

/-- Lexicographic strict order on strings, by code point. -/
def strLt (a b : String) : Bool := charsLt a.data b.data

/-- Inserts a key-value pair into a key-sorted association list. -/
def insertSortedByKey (p : String × String) :
    List (String × String) → List (String × String)
  | [] => [p]
  | q :: rest =>
    if strLt q.1 p.1 then q :: insertSortedByKey p rest else p :: q :: rest

/-- Sorts an association list by key (lexicographic), for the deterministic
secrets segment of the fingerprint grammar. -/
def sortByKey (l : List (String × String)) : List (String × String) :=
  l.foldr insertSortedByKey []

/-- Modelled from the spec: the portion of the project-commit fingerprint
grammar after the commit segment (spec 4.1 step 3) — build arguments in their
declared order, secrets in sorted key order, and a section with zero entries
still emits its label followed immediately by a semicolon. -/
def projectCommitGrammarRest (osEnv : String → Option String)
    (info : BuildInfo) : String :=
  "target:" ++ info.target
    ++ ";build_args:"
    ++ String.intercalate ";"
        (info.args.map (fun a => a.name ++ "=" ++ expandValue osEnv a.value))
    ++ ";secrets:"
    ++ String.intercalate ";"
        ((sortByKey info.secrets).map (fun s => s.1 ++ "=" ++ s.2))
    ++ ";context:" ++ info.context
    ++ ";dockerfile:" ++ info.dockerfile
    ++ ";image:" ++ info.image ++ ";"

/-- Modelled from the spec: the full project-commit fingerprint grammar
string (spec 4.1 step 3). -/
def projectCommitGrammar (osEnv : String → Option String) (commit : String)
    (info : BuildInfo) : String :=
  "commit:" ++ commit ++ ";" ++ projectCommitGrammarRest osEnv info

/-- Modelled from the spec: serviceHasher.hashProjectCommit — the SHA-256 hex
digest of the grammar string, never failing on commit-lookup error
(spec 4.1). -/
def hashProjectCommit (commitResult : Except String String)
    (osEnv : String → Option String) (info : BuildInfo) : String :=
  sha256Hex (projectCommitGrammar osEnv (commitFromRepo commitResult) info)

/-! ## Collaborator context -/

/-- The collaborators and configuration snapshot consumed by the orchestrator:
the okteto-context flag, the Repository commit lookup, the Config booleans,
the ambient variable environment, the build-context content hash (whose exact
algorithm the spec leaves open), the imageChecker cache lookup, the Registry
operations, the Build Executor, and the filesystem existence probe used by
getAccessibleVolumeMounts. -/
structure BuildCtx where
  isOkteto : Bool
  commit : Except String String
  isCleanProject : Bool
  isSmartBuildsEnabled : Bool
  osEnv : String → Option String
  contextHash : String → String
  checkIfBuilt : String → String → String → String × Bool
  isGlobalRegistry : String → Bool
  isOktetoRegistry : String → Bool
  cloneGlobalImageToDev : String → String → Except BErr String
  v1Build : BuildOpts → Except BErr Unit
  getImageTagWithDigest : String → Except String String
  statExists : String → Bool

/-- Modelled from the spec: serviceHasher.hashService — the effective
cache key combines the commit fingerprint with the build-context fingerprint
(spec 4.1); the spec leaves the exact composition open beyond determinism. -/
def hashService (ctx : BuildCtx) (info : BuildInfo) : String :=
  sha256Hex (hashProjectCommit ctx.commit ctx.osEnv info ++ ";"
    ++ ctx.contextHash info.context)

/-! ## Tag Strategy (imageTagger, spec 4.2)

The tagger implementations are outside the sources at hand; they are modelled
from the specification: a declared explicit image is returned verbatim (the
compose-plan exception is realized upstream by getBuildInfoWithoutVolumeMounts
clearing the image), otherwise a reference in the private dev registry named
planName-unitName with the fixed variant tag marker. -/

/-- Modelled from the spec: the standard Tag Strategy variant
(newImageTagger(...).getServiceImageReference), tag marker okteto. -/
def imageTaggerReference (planName svcName : String) (info : BuildInfo)
    (_buildHash : String) : String :=
  if info.image != "" then info.image
  else "okteto.dev/" ++ planName ++ "-" ++ svcName ++ ":okteto"

/-- Modelled from the spec: the volume-mount Tag Strategy variant
(newImageWithVolumesTagger(...).getServiceImageReference), tag marker
okteto-with-volume-mounts. -/
def imageWithVolumesTaggerReference (planName svcName : String)
    (info : BuildInfo) (_buildHash : String) : String :=
  if info.image != "" then info.image
  else "okteto.dev/" ++ planName ++ "-" ++ svcName ++ ":okteto-with-volume-mounts"

/-! ## Helper functions from build.go -/

/-- serviceHasDockerfile: true when the unit declares a dockerfile. -/
def serviceHasDockerfile (buildInfo : BuildInfo) : Bool :=
  buildInfo.dockerfile != ""

/-- serviceHasVolumesToInclude: true when the unit requests host-volume
mounts (len(VolumesToInclude) > 0). -/
def serviceHasVolumesToInclude (buildInfo : BuildInfo) : Bool :=
  match buildInfo.volumesToInclude with
  | [] => false
  | _ :: _ => true

/-- getAccessibleVolumeMounts: keeps exactly the requested mounts whose local
path exists on disk (os.Stat not returning IsNotExist, modelled by the
statExists probe); the rest are dropped without error. -/
def getAccessibleVolumeMounts (statExists : String → Bool)
    (buildInfo : BuildInfo) : List StackVolume :=
  buildInfo.volumesToInclude.filter (fun volume => statExists volume.localPath)

/-- getBuildInfoWithoutVolumeMounts: copy of the unit with the volume mounts
stripped; for a stack manifest in an okteto context whose image is not in the
okteto registry, the image is cleared so that a dev reference is
synthesized. -/
def getBuildInfoWithoutVolumeMounts (ctx : BuildCtx) (buildInfo : BuildInfo)
    (isStackManifest : Bool) : BuildInfo :=
  let result :=
    if buildInfo.volumesToInclude.length > 0 then
      { buildInfo with volumesToInclude := [] }
    else buildInfo
  if isStackManifest && ctx.isOkteto && !(ctx.isOktetoRegistry buildInfo.image)
  then { result with image := "" }
  else result

/-- getBuildInfoWithVolumeMounts: copy of the unit whose image is cleared for
stack manifests in an okteto context and whose volume mounts are restricted to
the accessible ones. -/
def getBuildInfoWithVolumeMounts (ctx : BuildCtx) (buildInfo : BuildInfo)
    (isStackManifest : Bool) : BuildInfo :=
  let result :=
    if isStackManifest && ctx.isOkteto then { buildInfo with image := "" }
    else buildInfo
  { result with
      volumesToInclude := getAccessibleVolumeMounts ctx.statExists buildInfo }

/-- getToBuildSvcs: the selected unit names — the command arguments when
given (GetSvcsToBuildFromList, modelled from the spec as the requested
names), otherwise every unit of the build section. -/
def getToBuildSvcs (m : Manifest) (options : BuildOptions) : List String :=
  if options.commandArgs.length != 0 then options.commandArgs
  else m.buildSvcNames

/-- The sentinel error oktetoErrors.ErrNoServicesToBuildDefined (its package
is outside the sources at hand; identity is what matters for errors.Is). -/
def errNoServicesToBuildDefined : BErr :=
  .msg "no services to build defined"

/-- The sentinel error oktetoErrors.ErrNoFlagAllowedOnSingleImageBuild. -/
def errNoFlagAllowedOnSingleImageBuild : BErr :=
  .msg "flag only allowed when building a single image"

/-- validateServices: every selected name must be a key of the build
section. -/
def validateServices (buildSection : List (String × BuildInfo))
    (svcsToBuild : List String) : Except BErr Unit :=
  let invalid := svcsToBuild.filter
    (fun service => !((buildSection.map (fun p => p.1)).contains service))
  if invalid.length != 0 then
    .error (.msg ("invalid services names, not found at manifest: "
      ++ String.intercalate " " invalid))
  else .ok ()

/-- validateOptions: no units selected is an error; selected names must exist
in the plan; per-unit flags (tag, target, cache-from, secrets) are rejected
together with more than one selected unit. -/
def validateOptions (m : Manifest) (svcsToBuild : List String)
    (options : BuildOptions) : Except BErr Unit :=
  if svcsToBuild.length == 0 then .error errNoServicesToBuildDefined
  else
    match validateServices m.build svcsToBuild with
    | .error e => .error e
    | .ok _ =>
      if svcsToBuild.length != 1
          && (options.tag != "" || options.target != ""
              || options.cacheFrom.isSome || options.secrets.isSome) then
        .error errNoFlagAllowedOnSingleImageBuild
      else .ok ()

/-- skipServiceBuild: a unit already present in the built-set is skipped. -/
def skipServiceBuild (service : String) (control : List String) : Bool :=
  control.contains service

/-- areAllServicesBuilt: every unit of the DependsOn list must be present in
the built-set. -/
def areAllServicesBuilt (services : List String) (control : List String) : Bool :=
  services.all (fun service => control.contains service)

/-! ## Image build pipeline (buildServiceImages and its stages)

Besides the orchestrator functions of build.go, two collaborators from
pkg/cmd/build whose sources are not at hand are modelled from the spec
(OptsFromBuildInfo and CreateDockerfileWithVolumeMounts).  Each pipeline
function also returns the list of Build Executor invocations it performed, so
that what was built is observable. -/

/-- Modelled from the spec: build.OptsFromBuildInfo — assembles the Build
Executor options (context, dockerfile, tag, args, target) from the unit, the
CLI tag flag taking precedence for the image tag (spec 6, Build Executor
contract). -/
def OptsFromBuildInfo (_planName _svcName : String) (info : BuildInfo)
    (options : BuildOptions) : BuildOpts :=
  { tag := if options.tag != "" then options.tag else info.image,
    context := info.context,
    dockerfile := info.dockerfile,
    target := info.target,
    args := info.args,
    volumes := info.volumesToInclude }

/-- Modelled from the spec: build.CreateDockerfileWithVolumeMounts —
synthesizes the stage-2 derived build description whose generated dockerfile
starts FROM the given base image and copies in each mount (spec 4.4); the
volumes field records the copied mounts. -/
def CreateDockerfileWithVolumeMounts (fromImage : String)
    (volumesToInclude : List StackVolume) : Except BErr BuildInfo :=
  .ok { image := fromImage, context := ".",
        dockerfile := "okteto-volume-mounts.Dockerfile",
        volumesToInclude := volumesToInclude }

/-- Modelled from the spec: BuildInfo.AddBuildArgs — materializes the
build-argument values against the exported build environment before the
executor sees them. -/
def addBuildArgs (buildEnvs : List (String × String)) (info : BuildInfo) :
    BuildInfo :=
  { info with
      args := info.args.map
        (fun a =>
          { a with value := expandValue (fun k => buildEnvs.lookup k) a.value }) }

/-- buildSvcFromDockerfile: stage-1 build of a unit from its dockerfile —
strips the volume mounts, derives the image reference with the standard Tag
Strategy, runs the Build Executor and resolves the pushed digest at the
registry. -/
def buildSvcFromDockerfile (ctx : BuildCtx) (m : Manifest) (svcName : String)
    (options : BuildOptions) (buildEnvironments : List (String × String)) :
    Except BErr String × List BuildOpts :=
  let isStackManifest := m.isStack
  let buildSvcInfo := getBuildInfoWithoutVolumeMounts ctx (m.getSvc svcName)
    isStackManifest
  let buildHash := hashService ctx buildSvcInfo
  let tagToBuild := imageTaggerReference m.name svcName buildSvcInfo buildHash
  let buildSvcInfo := { buildSvcInfo with image := tagToBuild }
  let buildSvcInfo := addBuildArgs buildEnvironments buildSvcInfo
  let buildOptions := OptsFromBuildInfo m.name svcName buildSvcInfo options
  match ctx.v1Build buildOptions with
  | .error e => (.error e, [buildOptions])
  | .ok _ =>
    let reference := buildOptions.tag
    match ctx.getImageTagWithDigest reference with
    | .error e =>
      (.error (.msg ("error accessing image at registry " ++ reference
        ++ ": " ++ e)), [buildOptions])
    | .ok imageTagWithDigest => (.ok imageTagWithDigest, [buildOptions])

/-- addVolumeMounts: stage-2 build — derives the volume-mount image reference,
synthesizes the derived build layering the accessible mounts on the base
image, runs the Build Executor and resolves the pushed digest.  curInfo is the
current build section entry of the unit (build.go reads it again through the
manifest pointer, which stage 1 has mutated). -/
def addVolumeMounts (ctx : BuildCtx) (m : Manifest) (svcName : String)
    (options : BuildOptions) (curInfo : BuildInfo) :
    Except BErr String × List BuildOpts :=
  let isStackManifest := m.isStack || m.hasComposeSection
  let fromImage := if options.tag != "" then options.tag else curInfo.image
  let buildInfoCopy := { curInfo with image := "" }
  let buildHash := hashService ctx buildInfoCopy
  let tagToBuild := imageWithVolumesTaggerReference m.name svcName
    buildInfoCopy buildHash
  let buildSvcInfo := getBuildInfoWithVolumeMounts ctx curInfo isStackManifest
  match CreateDockerfileWithVolumeMounts fromImage
      buildSvcInfo.volumesToInclude with
  | .error e => (.error e, [])
  | .ok svcBuild =>
    let buildOptions :=
      { OptsFromBuildInfo m.name svcName svcBuild options with
          tag := tagToBuild }
    match ctx.v1Build buildOptions with
    | .error e => (.error e, [buildOptions])
    | .ok _ =>
      match ctx.getImageTagWithDigest buildOptions.tag with
      | .error e =>
        (.error (.msg ("error accessing image at registry " ++ options.tag
          ++ ": " ++ e)), [buildOptions])
      | .ok imageTagWithDigest => (.ok imageTagWithDigest, [buildOptions])

/-- buildServiceImages: builds the images for the given unit.  Volume mounts
outside an okteto context are a rejected configuration; a unit with both a
dockerfile and mounts gets the two-stage build; a unit with only a dockerfile
gets the stage-1 build; a unit with only mounts gets the stage-2 build on its
pre-existing image; a unit with neither returns an empty reference and no
error. -/
def buildServiceImages (ctx : BuildCtx) (m : Manifest) (svcName : String)
    (options : BuildOptions) (buildEnvironments : List (String × String)) :
    Except BErr String × List BuildOpts :=
  let buildSvcInfo := m.getSvc svcName
  if serviceHasVolumesToInclude buildSvcInfo && !ctx.isOkteto then
    (.error (.user "Build with volume mounts is not supported on vanilla contexts"
      "Please connect to a okteto context and try again"), [])
  else if serviceHasDockerfile buildSvcInfo
      && serviceHasVolumesToInclude buildSvcInfo then
    match buildSvcFromDockerfile ctx m svcName options buildEnvironments with
    | (.error e, tr) => (.error e, tr)
    | (.ok image, tr) =>
      let r := addVolumeMounts ctx m svcName options
        { buildSvcInfo with image := image }
      (r.1, tr ++ r.2)
  else if serviceHasDockerfile buildSvcInfo then
    buildSvcFromDockerfile ctx m svcName options buildEnvironments
  else if serviceHasVolumesToInclude buildSvcInfo then
    if ctx.isOkteto then addVolumeMounts ctx m svcName options buildSvcInfo
    else (.ok "", [])
  else (.ok "", [])

/-! ## Build Orchestrator (the scheduler of Build, build.go lines 161-268) -/

/-- Marks a unit built: appends it to the built-set and records its exported
image reference (SetServiceEnvVars, the Environment Exporter, modelled from
the spec as the per-unit image record). -/
def markBuilt (st : SchedState) (svc imageTag : String) : SchedState :=
  { st with control := st.control ++ [svc],
            envVars := st.envVars ++ [(svc, imageTag)] }

/-- The tail of the loop body once the cache has been consulted (or skipped):
outside an okteto context a unit without an explicit image is a fatal
configuration error; otherwise the actual build runs, its failure aborting the
plan wrapped with the unit name. -/
def attemptBuild (ctx : BuildCtx) (m : Manifest) (options : BuildOptions)
    (svcToBuild : String) (st : SchedState) : SchedState × Option BErr :=
  let buildSvcInfo := m.getSvc svcToBuild
  if !ctx.isOkteto && buildSvcInfo.image == "" then
    (st, some (.msg ("\x27build." ++ svcToBuild
      ++ ".image\x27 is required if your context doesn\x27t have Okteto installed")))
  else
    let st1 := { st with trace := st.trace ++ [.attempt svcToBuild st.control] }
    match buildServiceImages ctx m svcToBuild options st.envVars with
    | (.error e, _) => (st1, some (.wrapped svcToBuild e))
    | (.ok imageTag, _) => (markBuilt st1 svcToBuild imageTag, none)

/-- The loop body for one unit that passed the skip and DependsOn guards
(build.go lines 195-262): when no-cache was not requested, the project is
clean and smart builds are enabled, the registry cache is consulted first; a
hit short-circuits the build (cloning a global image into the dev registry
when needed); otherwise the unit goes to an actual build. -/
def svcStep (ctx : BuildCtx) (m : Manifest) (options : BuildOptions)
    (svcToBuild : String) (st : SchedState) : SchedState × Option BErr :=
  let buildSvcInfo := m.getSvc svcToBuild
  if !options.noCache && ctx.isCleanProject && ctx.isSmartBuildsEnabled then
    let buildHash := hashService ctx buildSvcInfo
    let st1 := { st with trace := st.trace ++ [.cacheCheck svcToBuild st.control] }
    let checkRes := ctx.checkIfBuilt m.name svcToBuild buildHash
    if checkRes.2 then
      if ctx.isGlobalRegistry checkRes.1 then
        match ctx.cloneGlobalImageToDev checkRes.1 buildHash with
        | .error e => (st1, some e)
        | .ok devImage => (markBuilt st1 svcToBuild devImage, none)
      else (markBuilt st1 svcToBuild checkRes.1, none)
    else attemptBuild ctx m options svcToBuild st1
  else attemptBuild ctx m options svcToBuild st

/-- One pass of the inner for loop over the selected units: already-built
units are skipped, units with unbuilt dependencies are passed over, the rest
run the loop body; the first failure aborts the round. -/
def buildRound (ctx : BuildCtx) (m : Manifest) (options : BuildOptions) :
    List String → SchedState → SchedState × Option BErr
  | [], st => (st, none)
  | svcToBuild :: rest, st =>
    if skipServiceBuild svcToBuild st.control then
      buildRound ctx m options rest st
    else if !areAllServicesBuilt (m.getSvc svcToBuild).dependsOn st.control then
      buildRound ctx m options rest st
    else
      match svcStep ctx m options svcToBuild st with
      | (st1, none) => buildRound ctx m options rest st1
      | (st1, some e) => (st1, some e)

/-- The outer retry loop (for len(builtImagesControl) != len(toBuildSvcs)),
made explicit with fuel: none means the given number of rounds did not
suffice — the Go loop is still running. -/
def buildLoop (ctx : BuildCtx) (m : Manifest) (options : BuildOptions)
    (toBuildSvcs : List String) :
    Nat → SchedState → Option (SchedState × Option BErr)
  | 0, _ => none
  | fuel + 1, st =>
    if st.control.length == toBuildSvcs.length then some (st, none)
    else
      match buildRound ctx m options toBuildSvcs st with
      | (st1, some e) => some (st1, some e)
      | (st1, none) => buildLoop ctx m options toBuildSvcs fuel st1

/-- Build: the orchestrator core (build.go from line 161; the preamble —
remote-deploy short-circuit, workdir change, name inference — concerns
collaborators outside the core).  Selection and validation run first; the
sentinel no-services error is deliberately swallowed and Build returns
success with nothing built; any other validation error is fatal; otherwise
the scheduling loop runs. -/
def Build (ctx : BuildCtx) (fuel : Nat) (m : Manifest)
    (options : BuildOptions) : Option (SchedState × Option BErr) :=
  let toBuildSvcs := getToBuildSvcs m options
  match validateOptions m toBuildSvcs options with
  | .error e =>
    if e == errNoServicesToBuildDefined then some ({}, none)
    else some ({}, some e)
  | .ok _ => buildLoop ctx m options toBuildSvcs fuel {}

/-! ## Concrete fixtures (mirroring the doubles of build_test.go) -/

/-- A context of successful collaborators mirroring the fakes of the unit
tests: okteto context, echoing registry (a queried tag resolves to itself, as
with the fake registry after the fake builder pushed it), always-succeeding
executor, cache disabled through the smart-build flag, every path existing. -/
def ctxEcho : BuildCtx :=
  { isOkteto := true,
    commit := .ok "1234567890",
    isCleanProject := true,
    isSmartBuildsEnabled := false,
    osEnv := fun _ => none,
    contextHash := fun _ => "buildcontexthash",
    checkIfBuilt := fun _ _ _ => ("", false),
    isGlobalRegistry := fun _ => false,
    isOktetoRegistry := fun _ => false,
    cloneGlobalImageToDev := fun _ _ => .ok "",
    v1Build := fun _ => .ok (),
    getImageTagWithDigest := fun t => .ok t,
    statExists := fun _ => true }

/-- ctxEcho with the executor failing every build. -/
def ctxFailBuild : BuildCtx :=
  { ctxEcho with v1Build := fun _ => .error (.msg "build failed") }

/-- ctxEcho outside an okteto context. -/
def ctxVanilla : BuildCtx :=
  { ctxEcho with isOkteto := false }

/-- ctxEcho with a parameterized filesystem existence probe. -/
def ctxEchoStat (stat : String → Bool) : BuildCtx :=
  { ctxEcho with statExists := stat }

/-- The cyclic two-unit plan of the spec: a depends on b and b depends on
a. -/
def cyclicManifest : Manifest :=
  { name := "test",
    build := [("a", { context := ".", dockerfile := ".",
                      image := "okteto/a:test", dependsOn := ["b"] }),
              ("b", { context := ".", dockerfile := ".",
                      image := "okteto/b:test", dependsOn := ["a"] })] }

/-- The dependency plan of TestBuildWithDependsOn: unit b depends on unit
a. -/
def depManifest : Manifest :=
  { name := "test",
    build := [("a", { context := ".", dockerfile := "Dockerfile",
                      image := "okteto/a:test" }),
              ("b", { context := ".", dockerfile := "Dockerfile",
                      image := "okteto/b:test", dependsOn := ["a"] })] }

/-- A plan with an empty build section (zero units selected). -/
def emptyManifest : Manifest := { name := "test" }

/-- The unit of the literal fingerprint vector of
Test_getBuildHashFromCommit. -/
def hashVectorInfo : BuildInfo :=
  { args := [⟨"foo", "bar"⟩, ⟨"key", "value"⟩], target := "target",
    secrets := [("secret", "secret")], context := "context",
    dockerfile := "dockerfile", image := "image" }

/-- A single-unit plan with an explicit image and a dockerfile
(TestBuildWithoutVolumeMountWithImage). -/
def imageManifest : Manifest :=
  { name := "test",
    build := [("test", { context := ".", dockerfile := "Dockerfile",
                         image := "okteto/test" })] }

/-- A single-unit plan with a dockerfile and no explicit image
(TestBuildWithoutVolumeMountWithoutImage). -/
def noImageManifest : Manifest :=
  { name := "test",
    build := [("test", { context := ".", dockerfile := "Dockerfile" })] }

/-- The no-image unit with a volume mount added (TestTwoStepsBuild). -/
def volumesManifest : Manifest :=
  { name := "test",
    build := [("test", { context := ".", dockerfile := "Dockerfile",
                         volumesToInclude := [⟨"/tmp", "/tmp"⟩] })] }

/-- A single-unit plan with an image and volume mounts but no dockerfile,
parameterized by the mount list (TestOnlyInjectVolumeMountsInOkteto). -/
def mountsOnlyManifest (vols : List StackVolume) : Manifest :=
  { name := "test",
    build := [("test", { image := "nginx", volumesToInclude := vols })] }

/-- A single-unit plan whose unit has neither a dockerfile nor volume
mounts. -/
def bareManifest : Manifest :=
  { name := "test", build := [("bare", { context := "." })] }

/-- An event respects the dependency ordering when, for a build attempt, the
full DependsOn list of the unit was inside the built-set snapshot taken at the
moment the attempt started. -/
def evRespectsDeps (m : Manifest) : Ev → Bool
  | .attempt svc snap => areAllServicesBuilt (m.getSvc svc).dependsOn snap
  | .cacheCheck _ _ => true

/-- Whether an event list contains a registry cache lookup for the given
unit. -/
def hasCacheCheckFor (svc : String) (evs : List Ev) : Bool :=
  evs.any (fun ev =>
    match ev with
    | .cacheCheck s _ => s == svc
    | .attempt _ _ => false)

/-! ## Theorems -/

/-- The build-attempt tail of the loop body either leaves the trace unchanged
(configuration error) or appends exactly one attempt event carrying the
current built-set. -/
theorem attemptBuild_trace_shape (ctx : BuildCtx) (m : Manifest)
    (options : BuildOptions) (svc : String) (st : SchedState) :
    (attemptBuild ctx m options svc st).1.trace = st.trace ∨
    (attemptBuild ctx m options svc st).1.trace
      = st.trace ++ [Ev.attempt svc st.control] := by
  simp only [attemptBuild]
  split
  · exact Or.inl rfl
  · split
    · exact Or.inr rfl
    · exact Or.inr rfl

/-- A Boolean event predicate survives the build-attempt tail when it holds of
the current trace and of the attempt event at the current built-set. -/
theorem attemptBuild_trace_all (ctx : BuildCtx) (m : Manifest)
    (options : BuildOptions) (svc : String) (st : SchedState) (P : Ev → Bool)
    (h : st.trace.all P = true) (hg : P (.attempt svc st.control) = true) :
    (attemptBuild ctx m options svc st).1.trace.all P = true := by
  rcases attemptBuild_trace_shape ctx m options svc st with hs | hs <;>
    rw [hs] <;> simp [List.all_append, h, hg]

/-- A Boolean event predicate survives the whole loop body when it holds of
the current trace and of both possible events at the current built-set. -/
theorem svcStep_trace_all (ctx : BuildCtx) (m : Manifest)
    (options : BuildOptions) (svc : String) (st : SchedState) (P : Ev → Bool)
    (h : st.trace.all P = true) (hg : P (.attempt svc st.control) = true)
    (hc : P (.cacheCheck svc st.control) = true) :
    (svcStep ctx m options svc st).1.trace.all P = true := by
  simp only [svcStep]
  split
  · have h1 : (st.trace ++ [Ev.cacheCheck svc st.control]).all P = true := by
      simp [List.all_append, h, hc]
    split
    · split
      · split
        · simpa using h1
        · simpa [markBuilt] using h1
      · simpa [markBuilt] using h1
    · exact attemptBuild_trace_all ctx m options svc
        { st with trace := st.trace ++ [Ev.cacheCheck svc st.control] } P h1 hg
  · exact attemptBuild_trace_all ctx m options svc st P h hg

/-- A Boolean event predicate that holds of every cache event and of every
attempt event whose snapshot satisfies the DependsOn guard survives one
scheduling round. -/
theorem buildRound_trace_all (ctx : BuildCtx) (m : Manifest)
    (options : BuildOptions) (P : Ev → Bool)
    (hattP : ∀ svc snap, areAllServicesBuilt (m.getSvc svc).dependsOn snap
      = true → P (.attempt svc snap) = true)
    (hccP : ∀ svc snap, P (.cacheCheck svc snap) = true) :
    ∀ (svcs : List String) (st : SchedState), st.trace.all P = true →
      (buildRound ctx m options svcs st).1.trace.all P = true := by
  intro svcs
  induction svcs with
  | nil => intro st h; exact h
  | cons svc rest ih =>
    intro st h
    simp only [buildRound]
    split
    · exact ih st h
    · split
      · exact ih st h
      · next hdep =>
        have hg : areAllServicesBuilt (m.getSvc svc).dependsOn st.control
            = true := by
          revert hdep
          cases areAllServicesBuilt (m.getSvc svc).dependsOn st.control <;>
            simp
        have hstep : (svcStep ctx m options svc st).1.trace.all P = true :=
          svcStep_trace_all ctx m options svc st P h
            (hattP svc st.control hg) (hccP svc st.control)
        split
        · next st1 heq =>
          refine ih st1 ?_
          rw [heq] at hstep
          exact hstep
        · next st1 e heq =>
          rw [heq] at hstep
          exact hstep

/-- A Boolean event predicate as above survives the whole retry loop. -/
theorem buildLoop_trace_all (ctx : BuildCtx) (m : Manifest)
    (options : BuildOptions) (svcs : List String) (P : Ev → Bool)
    (hattP : ∀ svc snap, areAllServicesBuilt (m.getSvc svc).dependsOn snap
      = true → P (.attempt svc snap) = true)
    (hccP : ∀ svc snap, P (.cacheCheck svc snap) = true) :
    ∀ (fuel : Nat) (st : SchedState), st.trace.all P = true →
      ∀ stf e, buildLoop ctx m options svcs fuel st = some (stf, e) →
        stf.trace.all P = true := by
  intro fuel
  induction fuel with
  | zero => intro st h stf e hl; simp [buildLoop] at hl
  | succ n ih =>
    intro st h stf e hl
    simp only [buildLoop] at hl
    split at hl
    · injection hl with hl1
      injection hl1 with hl2 hl3
      rw [← hl2]
      exact h
    · have hround := buildRound_trace_all ctx m options P hattP hccP svcs st h
      split at hl
      · next st1 e1 heq =>
        injection hl with hl1
        injection hl1 with hl2 hl3
        rw [← hl2]
        rw [heq] at hround
        exact hround
      · next st1 heq =>
        refine ih st1 ?_ stf e hl
        rw [heq] at hround
        exact hround

/-- C3: in every Build invocation, a build of a unit is only ever started
when the full DependsOn list of that unit is inside the built-set snapshot
taken at that moment (so a dependent is never started before its dependency
is built); and on the concrete plan where b depends on a, a failing build of
a aborts the plan with the error of a wrapped with the unit name a, while b
is never attempted, never built, and gets no exported variables. -/
theorem build_respects_dependsOn_and_fails_fast :
    (∀ (ctx : BuildCtx) (fuel : Nat) (m : Manifest) (options : BuildOptions)
        (st : SchedState) (e : Option BErr),
        Build ctx fuel m options = some (st, e) →
        st.trace.all (evRespectsDeps m) = true)
    ∧ Build ctxFailBuild 5 depManifest {}
        = some ({ control := [], envVars := [],
                  trace := [.attempt "a" []] },
                some (.wrapped "a" (.msg "build failed"))) := by
  constructor
  · intro ctx fuel m options st e hb
    simp only [Build] at hb
    split at hb
    · split at hb <;>
        · injection hb with hb1
          injection hb1 with hb2 hb3
          rw [← hb2]
          rfl
    · exact buildLoop_trace_all ctx m options (getToBuildSvcs m options)
        (evRespectsDeps m)
        (fun svc snap hg => by simp [evRespectsDeps, hg])
        (fun svc snap => rfl)
        fuel {} rfl st e hb
  · rfl

/-- C3 witness: the successful run of the b-depends-on-a plan yields the
trace in which a was attempted against the empty built-set and b only against
the built-set already containing a, and that trace satisfies the dependency
guard. -/
theorem build_respects_dependsOn_witness :
    ([Ev.attempt "a" [], Ev.attempt "b" ["a"]]).all
        (evRespectsDeps depManifest) = true :=
  build_respects_dependsOn_and_fails_fast.1 ctxEcho 5 depManifest {}
    { control := ["a", "b"],
      envVars := [("a", "okteto/a:test"), ("b", "okteto/b:test")],
      trace := [Ev.attempt "a" [], Ev.attempt "b" ["a"]] }
    none rfl

/-- C5: for every unit that reaches the loop body, the registry cache lookup
happens if and only if all three conditions hold — no-cache was not
requested, the project source tree is clean, and smart builds are enabled;
when any fails the trace of the body contains no cache lookup, only the
straight build attempt. -/
theorem cache_lookup_iff_conditions :
    ∀ (ctx : BuildCtx) (m : Manifest) (options : BuildOptions)
      (svc : String) (control : List String)
      (envVars : List (String × String)),
      hasCacheCheckFor svc
          ((svcStep ctx m options svc
            { control := control, envVars := envVars, trace := [] }).1.trace)
        = true
      ↔ (options.noCache = false ∧ ctx.isCleanProject = true
          ∧ ctx.isSmartBuildsEnabled = true) := by
  intro ctx m options svc control envVars
  by_cases hcond : (!options.noCache && ctx.isCleanProject
      && ctx.isSmartBuildsEnabled) = true
  · have hrhs : options.noCache = false ∧ ctx.isCleanProject = true
        ∧ ctx.isSmartBuildsEnabled = true := by
      revert hcond
      cases options.noCache <;> cases ctx.isCleanProject <;>
        cases ctx.isSmartBuildsEnabled <;> simp
    rw [iff_true_intro hrhs, iff_true]
    simp only [svcStep, hcond, if_true]
    split
    · split
      · split <;> simp [hasCacheCheckFor, markBuilt]
      · simp [hasCacheCheckFor, markBuilt]
    · rcases attemptBuild_trace_shape ctx m options svc
          { control := control, envVars := envVars,
            trace := [] ++ [Ev.cacheCheck svc control] } with hs | hs <;>
        · simp only [hs]
          simp [hasCacheCheckFor, List.any_append]
  · have hrhs : ¬(options.noCache = false ∧ ctx.isCleanProject = true
        ∧ ctx.isSmartBuildsEnabled = true) := by
      revert hcond
      cases options.noCache <;> cases ctx.isCleanProject <;>
        cases ctx.isSmartBuildsEnabled <;> simp
    rw [iff_false_intro hrhs, iff_false]
    simp only [svcStep]
    rw [if_neg hcond]
    rcases attemptBuild_trace_shape ctx m options svc
        { control := control, envVars := envVars, trace := [] } with hs | hs <;>
      · rw [hs]
        simp [hasCacheCheckFor]

/-- C1: the spec demands that a plan whose pending units can never all have
their DependsOn lists satisfied terminates in finite time with an explicit
scheduling error; the code does not: on the cyclic plan a-depends-on-b,
b-depends-on-a, every round builds zero units and leaves the built-set empty,
so the outer loop never exits — for every fuel bound and every collaborator
context the Build operation is still running (none), and no scheduling error
is ever produced. -/
theorem build_cyclic_plan_never_terminates :
    ∀ (ctx : BuildCtx) (fuel : Nat),
      Build ctx fuel cyclicManifest {} = none := by
  intro ctx fuel
  induction fuel with
  | zero => rfl
  | succ n ih => exact ih

/-- C2: the project-commit fingerprint of the literal vector equals the
SHA-256 hex digest of the exact grammar string; build arguments appear in
declared order, the empty argument section still emits its label and
semicolon, and secrets are emitted in sorted key order. -/
theorem hashProjectCommit_literal_vector :
    hashProjectCommit (.ok "1234567890") (fun _ => none) hashVectorInfo
      = sha256Hex "commit:1234567890;target:target;build_args:foo=bar;key=value;secrets:secret=secret;context:context;dockerfile:dockerfile;image:image;"
    ∧ hashProjectCommit (.ok "1234567890") (fun _ => none)
        { hashVectorInfo with args := [] }
      = sha256Hex "commit:1234567890;target:target;build_args:;secrets:secret=secret;context:context;dockerfile:dockerfile;image:image;"
    ∧ hashProjectCommit (.ok "1234567890") (fun _ => none)
        { hashVectorInfo with
            secrets := [("secret2", "bar"), ("secret", "secret")] }
      = sha256Hex "commit:1234567890;target:target;build_args:foo=bar;key=value;secrets:secret=secret;secret2=bar;context:context;dockerfile:dockerfile;image:image;" :=
  ⟨congrArg sha256Hex (by decide), congrArg sha256Hex (by decide),
   congrArg sha256Hex (by decide)⟩

/-- C4: the claim that Build fails with a fatal plan-validation error when
zero units are selected is false on the code — with an empty build section the
Build operation returns success immediately with nothing built and nothing
attempted (counterexample). -/
theorem build_no_services_returns_success :
    Build ctxEcho 3 emptyManifest {}
      = some ({ control := [], envVars := [], trace := [] }, none) := rfl

/-- C4 (amended): with zero units selected, validateOptions does report the
no-services sentinel error, but Build deliberately swallows exactly that
sentinel and returns success with nothing built; the error is not fatal. -/
theorem validateOptions_no_services_swallowed_by_build :
    validateOptions emptyManifest (getToBuildSvcs emptyManifest {}) {}
        = .error errNoServicesToBuildDefined
    ∧ Build ctxEcho 3 emptyManifest {}
        = some ({ control := [], envVars := [], trace := [] }, none) :=
  ⟨rfl, rfl⟩

/-- C6: image-reference resolution — a unit with an explicit image, no
mounts, in a non-compose plan resolves to that image verbatim; a unit with no
explicit image and no mounts resolves to the dev reference
okteto.dev/plan-unit:okteto; the same unit with volume mounts resolves to
okteto.dev/plan-unit:okteto-with-volume-mounts. -/
theorem image_reference_resolution :
    (buildServiceImages ctxEcho imageManifest "test" {} []).1
        = .ok "okteto/test"
    ∧ (buildServiceImages ctxEcho noImageManifest "test" {} []).1
        = .ok "okteto.dev/test-test:okteto"
    ∧ (buildServiceImages ctxEcho volumesManifest "test" {} []).1
        = .ok "okteto.dev/test-test:okteto-with-volume-mounts" :=
  ⟨rfl, rfl, rfl⟩

/-- C9: the fingerprint computation never fails on commit-lookup error: a
failed lookup hashes exactly as an empty commit identity, the grammar string
degrades to an empty commit segment, and the literal degraded vector still
hashes. -/
theorem hashProjectCommit_degrades_on_commit_error :
    (∀ (e : String) (osEnv : String → Option String) (info : BuildInfo),
        hashProjectCommit (.error e) osEnv info
          = hashProjectCommit (.ok "") osEnv info)
    ∧ (∀ (e : String) (osEnv : String → Option String) (info : BuildInfo),
        projectCommitGrammar osEnv (commitFromRepo (.error e)) info
          = "commit:;" ++ projectCommitGrammarRest osEnv info)
    ∧ hashProjectCommit (.error "assert.AnError") (fun _ => none)
        hashVectorInfo
      = sha256Hex "commit:;target:target;build_args:foo=bar;key=value;secrets:secret=secret;context:context;dockerfile:dockerfile;image:image;" :=
  ⟨fun _ _ _ => rfl, fun _ _ _ => rfl, congrArg sha256Hex (by decide)⟩

/-- C7: for every existence predicate and every nonempty requested mount
list, the unit resolves successfully to the volume-mount reference, and the
single stage-2 executor invocation receives exactly the mounts whose local
path exists — the others are dropped without error. -/
theorem stage2_receives_exactly_existing_mounts :
    ∀ (stat : String → Bool) (vols : List StackVolume), vols ≠ [] →
      (buildServiceImages (ctxEchoStat stat) (mountsOnlyManifest vols)
          "test" {} []).1
        = .ok "okteto.dev/test-test:okteto-with-volume-mounts"
      ∧ (buildServiceImages (ctxEchoStat stat) (mountsOnlyManifest vols)
          "test" {} []).2.map BuildOpts.volumes
        = [vols.filter (fun v => stat v.localPath)] := by
  intro stat vols h
  match vols, h with
  | v :: vs, _ => exact ⟨rfl, rfl⟩

/-- C7 witness: with two requested mounts of which only one local path
exists, the derived build receives exactly the existing one and the build
succeeds. -/
theorem stage2_mounts_witness :
    ([⟨"/exists", "/data/logs"⟩, ⟨"/missing", "/data/logs"⟩] :
        List StackVolume) ≠ []
    ∧ (buildServiceImages (ctxEchoStat (fun p => p == "/exists"))
        (mountsOnlyManifest
          [⟨"/exists", "/data/logs"⟩, ⟨"/missing", "/data/logs"⟩])
        "test" {} []).1
      = .ok "okteto.dev/test-test:okteto-with-volume-mounts"
    ∧ (buildServiceImages (ctxEchoStat (fun p => p == "/exists"))
        (mountsOnlyManifest
          [⟨"/exists", "/data/logs"⟩, ⟨"/missing", "/data/logs"⟩])
        "test" {} []).2.map BuildOpts.volumes
      = [[⟨"/exists", "/data/logs"⟩]] := by
  have h := stage2_receives_exactly_existing_mounts (fun p => p == "/exists")
    [⟨"/exists", "/data/logs"⟩, ⟨"/missing", "/data/logs"⟩] (by decide)
  exact ⟨by decide, h.1, h.2.trans (by decide)⟩

/-- C8: a unit that requests volume mounts is rejected outside an okteto
context with the explicit user error and its remediation hint, and no
executor invocation is performed, regardless of the rest of the unit. -/
theorem volume_mounts_rejected_outside_okteto :
    ∀ (ctx : BuildCtx) (m : Manifest) (svcName : String)
      (options : BuildOptions) (benvs : List (String × String)),
      ctx.isOkteto = false →
      serviceHasVolumesToInclude (m.getSvc svcName) = true →
      buildServiceImages ctx m svcName options benvs
        = (.error
            (.user "Build with volume mounts is not supported on vanilla contexts"
              "Please connect to a okteto context and try again"), []) := by
  intro ctx m svcName options benvs hok hv
  simp [buildServiceImages, hok, hv]

/-- C8 witness: the volume-mount unit of the unit tests, in a vanilla
context, with a dockerfile present. -/
theorem volume_mounts_rejected_witness :
    ctxVanilla.isOkteto = false
    ∧ serviceHasVolumesToInclude (volumesManifest.getSvc "test") = true
    ∧ buildServiceImages ctxVanilla volumesManifest "test" {} []
      = (.error
          (.user "Build with volume mounts is not supported on vanilla contexts"
            "Please connect to a okteto context and try again"), []) :=
  ⟨rfl, by decide,
   volume_mounts_rejected_outside_okteto ctxVanilla volumesManifest "test"
     {} [] rfl (by decide)⟩

/-- C10: a unit with neither a dockerfile nor volume mounts yields an empty
image reference, no error and no executor invocation, and in the Build loop
such a unit is marked built with an empty exported image tag instead of
producing an error. -/
theorem bare_unit_builds_to_empty_reference :
    (∀ (ctx : BuildCtx) (m : Manifest) (svcName : String)
        (options : BuildOptions) (benvs : List (String × String)),
        (m.getSvc svcName).dockerfile = "" →
        (m.getSvc svcName).volumesToInclude = [] →
        buildServiceImages ctx m svcName options benvs = (.ok "", []))
    ∧ Build ctxEcho 3 bareManifest {}
        = some ({ control := ["bare"], envVars := [("bare", "")],
                  trace := [.attempt "bare" []] }, none) := by
  constructor
  · intro ctx m svcName options benvs hd hv
    simp [buildServiceImages, serviceHasDockerfile,
      serviceHasVolumesToInclude, hd, hv]
  · rfl

/-- C10 witness: the bare unit of the single-unit plan. -/
theorem bare_unit_witness :
    buildServiceImages ctxEcho bareManifest "bare" {} [] = (.ok "", []) :=
  bare_unit_builds_to_empty_reference.1 ctxEcho bareManifest "bare" {} []
    rfl rfl

end OktetoBuildV2
